import Mathlib

/-!
Shallow embedding of the invoice-agent evaluation pipeline, from
src/evaluator/evaluator.py and src/main.py.

Python values are modelled by the inductive `Json`; Python float
arithmetic is modelled exactly over the rationals (the literals 0.4,
0.3 and 25 denote the exact rationals the source writes); round(x, 2)
is modelled as exact round-half-to-even at two decimal places;
exceptions are modelled with `Except PyErr`.  The external
collaborators (the filesystem, the vision extraction call, the three
judge calls, the LangGraph workflow) are supplied by an oracle
structure `Env`, with judge outcomes modelled at the parsed-verdict
level: `Except.ok` carries the dict the judge call produced through
the response parser, `Except.error` carries the text of the exception
the call raised.  Each pipeline function also returns the list of
external network calls it made, so that never-invoked collaborators
are visible as absent trace entries.
-/

namespace InvoiceAgent

/-- Python values appearing in the pipeline: results of decoding a JSON
document plus the strings, numbers and dicts the code itself builds.
Python dicts are association lists; every dict the pipeline builds or
decodes has pairwise-distinct keys, so first-match lookup agrees with
Python dict lookup. -/
inductive Json where
  | null : Json
  | bool (b : Bool) : Json
  | num (q : ℚ) : Json
  | str (s : String) : Json
  | arr (elems : List Json) : Json
  | obj (fields : List (String × Json)) : Json

/-- The Python exceptions the embedded code can raise. -/
inductive PyErr where
  | valueError : PyErr
  | typeError : PyErr
  | attributeError : PyErr
  | fileNotFound (msg : String) : PyErr
  | exn (msg : String) : PyErr
  deriving DecidableEq

/-- Text used when an exception value is interpolated into a format
string, as evaluate does in its except clauses. -/
def PyErr.msg : PyErr → String
  | .valueError => "substring not found"
  | .typeError => "unsupported operand type"
  | .attributeError => "object has no attribute"
  | .fileNotFound m => m
  | .exn m => m

/-- Whitespace stripped by Python str.strip (the ASCII whitespace
characters; the code never strips anything wider). -/
def pyIsSpace (c : Char) : Bool :=
  c = ' ' || c = '\t' || c = '\n' || c = '\r' || c = '\x0b' || c = '\x0c'

/-- Python str.strip on the character list of a string. -/
def pyStrip (s : List Char) : List Char :=
  ((s.dropWhile pyIsSpace).reverse.dropWhile pyIsSpace).reverse

/-- Python str.find for one character: first index, or -1 when absent. -/
def pyFind (s : List Char) (c : Char) : Int :=
  match s.findIdx? (fun x => x = c) with
  | some i => (i : Int)
  | none => -1

/-- Python str.rfind for one character: last index, or -1 when absent. -/
def pyRFind (s : List Char) (c : Char) : Int :=
  match s.reverse.findIdx? (fun x => x = c) with
  | some i => ((s.length - 1 - i : Nat) : Int)
  | none => -1

/-- First-match association-list lookup, modelling Python dict lookup
on the duplicate-free dicts the pipeline handles. -/
def lookupField : List (String × Json) → String → Option Json
  | [], _ => none
  | (k, v) :: rest, key => if k = key then some v else lookupField rest key

/-- Python d.get(key, default): dicts answer the lookup, any other
receiver raises AttributeError. -/
def pyGet : Json → String → Json → Except PyErr Json
  | Json.obj fs, key, dflt => Except.ok ((lookupField fs key).getD dflt)
  | _, _, _ => Except.error PyErr.attributeError

/-- The numeric view Python isinstance(x, (int, float)) grants a value:
bools are ints in Python and count as 1 or 0. -/
def isNumberLike : Json → Option ℚ
  | Json.num q => some q
  | Json.bool b => some (if b then 1 else 0)
  | _ => none

/-- Python x * r for a float literal r: numbers multiply, any other
operand raises TypeError. -/
def pyMulFloat (j : Json) (r : ℚ) : Except PyErr ℚ :=
  match isNumberLike j with
  | some q => Except.ok (q * r)
  | none => Except.error PyErr.typeError

/-- Round to the nearest integer with ties to even, the rounding mode
of Python round. -/
def roundHalfEven (q : ℚ) : ℤ :=
  if q - ⌊q⌋ < 1 / 2 then ⌊q⌋
  else if 1 / 2 < q - ⌊q⌋ then ⌊q⌋ + 1
  else if ⌊q⌋ % 2 = 0 then ⌊q⌋ else ⌊q⌋ + 1

/-- Python round(x, 2), modelled exactly over the rationals. -/
def round2 (q : ℚ) : ℚ := (roundHalfEven (q * 100) : ℚ) / 100

/-- One hexadecimal digit of a JSON string escape. -/
def hexDigit (c : Char) : Option Nat :=
  if '0' ≤ c && c ≤ '9' then some (c.toNat - 48)
  else if 'a' ≤ c && c ≤ 'f' then some (c.toNat - 87)
  else if 'A' ≤ c && c ≤ 'F' then some (c.toNat - 55)
  else none

/-- Insignificant whitespace of the JSON grammar. -/
def jsonWsChar (c : Char) : Bool :=
  c = ' ' || c = '\t' || c = '\n' || c = '\r'

/-- Skip insignificant JSON whitespace. -/
def skipWs (s : List Char) : List Char := s.dropWhile jsonWsChar

/-- Value of a nonempty list of decimal digits. -/
def digitsToNat (ds : List Char) : Nat :=
  ds.foldl (fun a c => a * 10 + (c.toNat - 48)) 0

/-- Decode the body of a JSON string after its opening quote, returning
the decoded characters and the remainder after the closing quote.
Strict mode: unescaped control characters are rejected.  Surrogate-pair
recombination of u-escapes is not modelled. -/
def stringBody : Nat → List Char → Option (List Char × List Char)
  | 0, _ => none
  | _, [] => none
  | fuel + 1, c :: rest =>
    if c = '"' then some ([], rest)
    else if c = '\\' then
      match rest with
      | [] => none
      | e :: rest2 =>
        let cont := fun (d : Char) (r : List Char) =>
          (stringBody fuel r).map (fun p => (d :: p.1, p.2))
        if e = '"' then cont '"' rest2
        else if e = '\\' then cont '\\' rest2
        else if e = '/' then cont '/' rest2
        else if e = 'b' then cont '\x08' rest2
        else if e = 'f' then cont '\x0c' rest2
        else if e = 'n' then cont '\n' rest2
        else if e = 'r' then cont '\r' rest2
        else if e = 't' then cont '\t' rest2
        else if e = 'u' then
          match rest2 with
          | a :: b :: c2 :: d2 :: rest3 =>
            match hexDigit a, hexDigit b, hexDigit c2, hexDigit d2 with
            | some w, some x, some y, some z =>
              cont (Char.ofNat (((w * 16 + x) * 16 + y) * 16 + z)) rest3
            | _, _, _, _ => none
          | _ => none
        else none
    else if c.toNat < 32 then none
    else (stringBody fuel rest).map (fun p => (c :: p.1, p.2))

/-- Decode a JSON number by the strict grammar of the Python decoder,
returning its exact rational value.  A malformed optional fraction or
exponent is left unconsumed, exactly as the decoder regex leaves it. -/
def parseNumber (s : List Char) : Option (ℚ × List Char) :=
  let signStep : Bool × List Char :=
    match s with
    | '-' :: r => (true, r)
    | _ => (false, s)
  let s1 := signStep.2
  let intDs := s1.takeWhile Char.isDigit
  let s2 := s1.drop intDs.length
  if intDs.isEmpty then none
  else if 1 < intDs.length && intDs.head? = some '0' then none
  else
    let fracStep : ℚ × List Char :=
      match s2 with
      | '.' :: r =>
        let fds := r.takeWhile Char.isDigit
        if fds.isEmpty then (0, s2)
        else ((digitsToNat fds : ℚ) / ((10 : ℚ) ^ fds.length), r.drop fds.length)
      | _ => (0, s2)
    let s3 := fracStep.2
    let expStep : Int × List Char :=
      match s3 with
      | e :: r =>
        if e = 'e' || e = 'E' then
          let esign : Int × List Char :=
            match r with
            | '+' :: rr => (1, rr)
            | '-' :: rr => (-1, rr)
            | _ => (1, r)
          let eds := esign.2.takeWhile Char.isDigit
          if eds.isEmpty then (0, s3)
          else (esign.1 * (digitsToNat eds : Int), esign.2.drop eds.length)
        else (0, s3)
      | [] => (0, s3)
    let base : ℚ :=
      if fracStep.1 = 0 then (digitsToNat intDs : ℚ)
      else (digitsToNat intDs : ℚ) + fracStep.1
    let scaled : ℚ :=
      if expStep.1 = 0 then base
      else if 0 ≤ expStep.1 then base * (10 : ℚ) ^ expStep.1.toNat
      else base / (10 : ℚ) ^ (-expStep.1).toNat
    some ((if signStep.1 then -scaled else scaled), expStep.2)

mutual

/-- Decode one JSON value; the input starts at a significant character. -/
def parseValue : Nat → List Char → Option (Json × List Char)
  | 0, _ => none
  | fuel + 1, s =>
    match s with
    | '\x7b' :: r =>
      (match skipWs r with
       | '\x7d' :: r2 => some (Json.obj [], r2)
       | s2 => parseMembers fuel s2 [])
    | '[' :: r =>
      (match skipWs r with
       | ']' :: r2 => some (Json.arr [], r2)
       | s2 => parseElements fuel s2 [])
    | '"' :: r => (stringBody (fuel + 1) r).map (fun p => (Json.str (String.mk p.1), p.2))
    | 't' :: 'r' :: 'u' :: 'e' :: r => some (Json.bool true, r)
    | 'f' :: 'a' :: 'l' :: 's' :: 'e' :: r => some (Json.bool false, r)
    | 'n' :: 'u' :: 'l' :: 'l' :: r => some (Json.null, r)
    | _ => (parseNumber s).map (fun p => (Json.num p.1, p.2))

/-- Decode the members of a nonempty JSON object after its brace. -/
def parseMembers : Nat → List Char → List (String × Json) → Option (Json × List Char)
  | 0, _, _ => none
  | fuel + 1, s, acc =>
    match s with
    | '"' :: r =>
      (match stringBody (fuel + 1) r with
       | none => none
       | some (kcs, r2) =>
         match skipWs r2 with
         | ':' :: r3 =>
           (match parseValue fuel (skipWs r3) with
            | none => none
            | some (v, r4) =>
              match skipWs r4 with
              | ',' :: r5 => parseMembers fuel (skipWs r5) (acc ++ [(String.mk kcs, v)])
              | '\x7d' :: r5 => some (Json.obj (acc ++ [(String.mk kcs, v)]), r5)
              | _ => none)
         | _ => none)
    | _ => none

/-- Decode the elements of a nonempty JSON array after its bracket. -/
def parseElements : Nat → List Char → List Json → Option (Json × List Char)
  | 0, _, _ => none
  | fuel + 1, s, acc =>
    match parseValue fuel s with
    | none => none
    | some (v, r) =>
      match skipWs r with
      | ',' :: r2 => parseElements fuel (skipWs r2) (acc ++ [v])
      | ']' :: r2 => some (Json.arr (acc ++ [v]), r2)
      | _ => none

end

/-- Python json.loads on the strict JSON grammar: decode one value,
allow surrounding whitespace, reject trailing data.  none models a
raised JSONDecodeError.  The NaN and Infinity extensions of the Python
decoder have no rational value and are not modelled; no claim depends
on them. -/
def jsonLoads (s : List Char) : Option Json :=
  match parseValue (s.length + 8) (skipWs s) with
  | some (v, rest) => if (skipWs rest).isEmpty then some v else none
  | none => none

/-- The failure object the response parser returns when no JSON can be
located. -/
def parseFailure (text : String) : Json :=
  Json.obj [("error", Json.str "Parse failed"), ("raw", Json.str text)]

/-- Embedding of evaluator.py parse_json (spelled there with a leading
underscore): strip one leading markdown fence line and one trailing
fence from the stripped text, try strict decoding; on failure retry on
the slice of the original text from its first opening brace to its last
closing brace; on failure again return the failure object.  The index
call that locates the end of the fence line sits outside every try
block in the source, so the ValueError it raises on a fence with no
newline propagates to the caller. -/
def parse_json (text : String) : Except PyErr Json :=
  let t := text.data
  let cleaned0 := pyStrip t
  let fenceStripped : Except PyErr (List Char) :=
    if ['\x60', '\x60', '\x60'].isPrefixOf cleaned0 then
      match cleaned0.findIdx? (fun c => c = '\n') with
      | none => Except.error PyErr.valueError
      | some i =>
        let c1 := cleaned0.drop (i + 1)
        let c2 := if ['\x60', '\x60', '\x60'].isSuffixOf c1 then c1.take (c1.length - 3) else c1
        Except.ok (pyStrip c2)
    else Except.ok cleaned0
  match fenceStripped with
  | Except.error e => Except.error e
  | Except.ok cleaned =>
    match jsonLoads cleaned with
    | some v => Except.ok v
    | none =>
      let start := pyFind t '\x7b'
      let stop := pyRFind t '\x7d' + 1
      if start ≠ -1 ∧ start < stop then
        match jsonLoads ((t.drop start.toNat).take (stop - start).toNat) with
        | some v => Except.ok v
        | none => Except.ok (parseFailure text)
      else Except.ok (parseFailure text)

/-- The parsed-invoice state object of the workflow, as main.run reads
it: only its raw_text attribute is consumed. -/
structure ParsedInvoice where
  raw_text : String

/-- The state dict returned by the LangGraph workflow, as main.run
reads it with .get calls. -/
structure WorkflowResult where
  error : Option String
  insights : List String
  parsed_invoice : Option ParsedInvoice
  parser_used : Option String

/-- The external network calls the pipeline can make. -/
inductive Call where
  | extractC : Call
  | fcC : Call
  | qC : Call
  | pcC : Call
  deriving DecidableEq

/-- Oracle for the external collaborators.  fileExists is the
filesystem; extractResp is the outcome of the one vision extraction
request; fcResp, qResp and pcResp are the outcomes of the three judge
calls at the parsed-verdict level (ok carries the dict produced through
the response parser, error the message of the exception the call
raised); workflowResp is the outcome of the LangGraph workflow
invocation made by main.run. -/
structure Env where
  fileExists : String → Bool
  extractResp : Except String String
  fcResp : Except String Json
  qResp : Except String Json
  pcResp : Except String Json
  workflowResp : Except String WorkflowResult

/-- Embedding of evaluator.extract_invoice_text: raise FileNotFoundError
before any network traffic when the path does not exist, otherwise make
exactly one extraction call whose outcome the oracle supplies. -/
def extract_invoice_text (env : Env) (image_path : String) :
    Except PyErr String × List Call :=
  if env.fileExists image_path then
    match env.extractResp with
    | Except.ok t => (Except.ok t, [Call.extractC])
    | Except.error e => (Except.error (PyErr.exn e), [Call.extractC])
  else (Except.error (PyErr.fileNotFound ("Image not found: " ++ image_path)), [])

/-- The error stub that replaces a failed judge verdict in evaluate. -/
def errStub (e : String) : Json :=
  Json.obj [("error", Json.str ("Judge failed: " ++ e)), ("score", Json.num 0)]

/-- The skip stub used for judge C when no OCR raw text is provided. -/
def skipStub : Json :=
  Json.obj [("score", Json.num 0), ("skipped", Json.str "No parser raw text provided")]

/-- The verdict slot produced by one judge try block of evaluate. -/
def slotOf : Except String Json → Json
  | Except.ok d => d
  | Except.error e => errStub e

/-- The parsing-consistency slot: judge C runs only when the OCR raw
text is a nonempty (truthy) string. -/
def pcSlot (env : Env) (parser_raw_text : String) : Json :=
  if parser_raw_text = "" then skipStub else slotOf env.pcResp

/-- The network calls of the parsing-consistency try block. -/
def pcCalls (parser_raw_text : String) : List Call :=
  if parser_raw_text = "" then [] else [Call.pcC]

/-- The quality-score normalization step of evaluate: a Python number
not exceeding 4 is rescaled by 25, every other value is left as-is. -/
def normalizeQuality (j : Json) : Json :=
  match isNumberLike j with
  | some q => if q ≤ 4 then Json.num (q * 25) else j
  | none => j

/-- The aggregation step of evaluate, in source evaluation order: read
and normalize the quality score, then fold the three weighted terms
left to right.  A non-number operand of a float multiplication raises
TypeError and a non-dict verdict raises AttributeError; evaluate
catches neither. -/
def aggregate (factual_completeness quality parsing_consistency : Json) :
    Except PyErr ℚ :=
  match pyGet quality "score" (Json.num 0) with
  | Except.error e => Except.error e
  | Except.ok qs =>
    match pyGet factual_completeness "score" (Json.num 0) with
    | Except.error e => Except.error e
    | Except.ok fs =>
      match pyMulFloat fs (0.4 : ℚ) with
      | Except.error e => Except.error e
      | Except.ok a =>
        match pyMulFloat (normalizeQuality qs) (0.3 : ℚ) with
        | Except.error e => Except.error e
        | Except.ok b =>
          match pyGet parsing_consistency "score" (Json.num 0) with
          | Except.error e => Except.error e
          | Except.ok ps =>
            match pyMulFloat ps (0.3 : ℚ) with
            | Except.error e => Except.error e
            | Except.ok c => Except.ok (a + b + c)

/-- The result record evaluate returns on the success path, one field
per key of the returned dict. -/
structure EvalResult where
  extracted_text : String
  factual_completeness : Json
  quality : Json
  parsing_consistency : Json
  overall_score : ℚ

/-- The two dict shapes evaluate can return: the error dict whose only
key is error, or the fully-populated result dict. -/
inductive EvalOutcome where
  | errorDict (msg : String) : EvalOutcome
  | result (r : EvalResult) : EvalOutcome

/-- Embedding of evaluator.evaluate, paired with the trace of external
calls made. -/
def evaluate (env : Env) (image_path : String) (insights : List String)
    (parser_raw_text : String) : Except PyErr EvalOutcome × List Call :=
  match extract_invoice_text env image_path with
  | (Except.error (PyErr.fileNotFound _), calls) =>
    (Except.ok (EvalOutcome.errorDict ("Image not found: " ++ image_path)), calls)
  | (Except.error e, calls) =>
    (Except.ok (EvalOutcome.errorDict ("Failed to extract invoice text: " ++ PyErr.msg e)),
     calls)
  | (Except.ok extracted_text, calls) =>
    let allCalls := calls ++ [Call.fcC, Call.qC] ++ pcCalls parser_raw_text
    match aggregate (slotOf env.fcResp) (slotOf env.qResp) (pcSlot env parser_raw_text) with
    | Except.error e => (Except.error e, allCalls)
    | Except.ok overall =>
      (Except.ok (EvalOutcome.result
        ⟨extracted_text, slotOf env.fcResp, slotOf env.qResp,
         pcSlot env parser_raw_text, round2 overall⟩), allCalls)

/-- The combined dict returned by main.run. -/
inductive RunOutcome where
  | errorDict (msg : String) : RunOutcome
  | combined (parser_used : Option String) (insights : List String)
      (evaluation : EvalOutcome) : RunOutcome

/-- The OCR raw text main.run passes to the evaluator: the raw_text of
the parsed invoice when the workflow produced one, else the empty
string. -/
def wfRawText (wf : WorkflowResult) : String :=
  match wf.parsed_invoice with
  | some pi => pi.raw_text
  | none => ""

/-- The tail of main.run after the workflow returned without a truthy
error: read insights and the OCR raw text from the workflow state and
call evaluate on the same path. -/
def runEval (env : Env) (image_path : String) (wf : WorkflowResult) :
    Except PyErr RunOutcome :=
  match (evaluate env image_path wf.insights (wfRawText wf)).1 with
  | Except.error e => Except.error e
  | Except.ok ev => Except.ok (RunOutcome.combined wf.parser_used wf.insights ev)

/-- Embedding of main.run: check path existence first and raise
FileNotFoundError, invoke the workflow, short-circuit on a truthy
workflow error, then run the evaluator on the same path. -/
def run (env : Env) (image_path : String) : Except PyErr RunOutcome :=
  if env.fileExists image_path then
    match env.workflowResp with
    | Except.error e => Except.error (PyErr.exn e)
    | Except.ok wf =>
      match wf.error with
      | some e => if e = "" then runEval env image_path wf else Except.ok (RunOutcome.errorDict e)
      | none => runEval env image_path wf
  else Except.error (PyErr.fileNotFound ("Image not found: " ++ image_path))

/-- Quality normalization as section 4.6 of the spec words it, over a
bare rational score. -/
def specQualityNorm (q : ℚ) : ℚ := if q ≤ 4 then q * 25 else q

/-- The aggregation formula as section 4.6 of the spec words it:
weighted sum of the three scores with the quality score normalized,
rounded to two decimal places. -/
def specOverall (fc qv pc : ℚ) : ℚ :=
  round2 ((0.4 : ℚ) * fc + (0.3 : ℚ) * specQualityNorm qv + (0.3 : ℚ) * pc)

/-- A concrete oracle on which the whole pipeline succeeds: the file
exists, extraction returns text, and all three judges return dicts with
numeric scores (80 and 90 on the percentage scale, quality 3 on the
1..4 scale). -/
def cenvGood : Env :=
  ⟨fun _ => true, Except.ok "Vendor: Acme Co, Total: 500",
   Except.ok (Json.obj [("score", Json.num 80)]),
   Except.ok (Json.obj [("score", Json.num 3)]),
   Except.ok (Json.obj [("score", Json.num 90)]),
   Except.error "workflow not exercised"⟩

/-- A concrete oracle whose quality judge answers exactly 4. -/
def cenvQuality4 : Env :=
  ⟨fun _ => true, Except.ok "Vendor: Acme Co, Total: 500",
   Except.ok (Json.obj [("score", Json.num 80)]),
   Except.ok (Json.obj [("score", Json.num 4)]),
   Except.ok (Json.obj [("score", Json.num 90)]),
   Except.error "workflow not exercised"⟩

/-- A concrete oracle whose factual-completeness judge call raises. -/
def cenvOneFail : Env :=
  ⟨fun _ => true, Except.ok "Vendor: Acme Co, Total: 500",
   Except.error "judge transport failure",
   Except.ok (Json.obj [("score", Json.num 3)]),
   Except.ok (Json.obj [("score", Json.num 80)]),
   Except.error "workflow not exercised"⟩

/-- A concrete oracle whose quality judge returns a dict carrying its
score as the string 3.5 rather than a number. -/
def cenvTypeErr : Env :=
  ⟨fun _ => true, Except.ok "Vendor: Acme Co, Total: 500",
   Except.ok (Json.obj [("score", Json.num 50)]),
   Except.ok (Json.obj [("score", Json.str "3.5")]),
   Except.ok (Json.obj [("score", Json.num 50)]),
   Except.error "workflow not exercised"⟩

/-- A concrete oracle whose filesystem has no files. -/
def cenvMissing : Env :=
  ⟨fun _ => false, Except.error "network down", Except.error "judge down",
   Except.error "judge down", Except.error "judge down",
   Except.error "workflow down"⟩

/-- A dict whose score field, when present, is a Python number; this is
the condition under which the weighted sum of evaluate is defined. -/
def scoreFieldNumeric (j : Json) : Bool :=
  match j with
  | Json.obj fs =>
    (match lookupField fs "score" with
     | some v => (isNumberLike v).isSome
     | none => true)
  | _ => false

/-- A judge outcome whose returned dict, if any, has a numeric (or
absent) score field. -/
def respOk (r : Except String Json) : Prop :=
  ∀ d, r = Except.ok d → scoreFieldNumeric d = true

theorem roundHalfEven_nonneg {q : ℚ} (h : 0 ≤ q) : 0 ≤ roundHalfEven q := by
  have hf : (0 : ℤ) ≤ ⌊q⌋ := Int.floor_nonneg.mpr h
  unfold roundHalfEven
  split_ifs <;> omega

theorem roundHalfEven_le {q : ℚ} {B : ℤ} (h : q ≤ (B : ℚ)) : roundHalfEven q ≤ B := by
  have hfl : ⌊q⌋ ≤ B := by
    have h2 := Int.floor_mono h
    rwa [Int.floor_intCast] at h2
  have hq1 : (⌊q⌋ : ℚ) ≤ q := Int.floor_le q
  unfold roundHalfEven
  split_ifs with h1 h2 h3
  · exact hfl
  · by_contra hc
    have hBf : B ≤ ⌊q⌋ := by omega
    have hBq : (B : ℚ) ≤ (⌊q⌋ : ℚ) := by exact_mod_cast hBf
    linarith
  · exact hfl
  · have heq : q - (⌊q⌋ : ℚ) = 1 / 2 := le_antisymm (not_lt.mp h2) (not_lt.mp h1)
    by_contra hc
    have hBf : B ≤ ⌊q⌋ := by omega
    have hBq : (B : ℚ) ≤ (⌊q⌋ : ℚ) := by exact_mod_cast hBf
    linarith

theorem round2_nonneg {x : ℚ} (h : 0 ≤ x) : 0 ≤ round2 x := by
  unfold round2
  have h1 : (0 : ℤ) ≤ roundHalfEven (x * 100) := roundHalfEven_nonneg (by linarith)
  have h2 : (0 : ℚ) ≤ ((roundHalfEven (x * 100) : ℤ) : ℚ) := by exact_mod_cast h1
  linarith

theorem round2_le_100 {x : ℚ} (h : x ≤ 100) : round2 x ≤ 100 := by
  unfold round2
  have h1 : roundHalfEven (x * 100) ≤ (10000 : ℤ) :=
    roundHalfEven_le (by push_cast; linarith)
  have h2 : ((roundHalfEven (x * 100) : ℤ) : ℚ) ≤ 10000 := by exact_mod_cast h1
  linarith

theorem aggregate_eq_le {fcj qj pcj : Json} {f qv g : ℚ}
    (hf : pyGet fcj "score" (Json.num 0) = Except.ok (Json.num f))
    (hq : pyGet qj "score" (Json.num 0) = Except.ok (Json.num qv))
    (hg : pyGet pcj "score" (Json.num 0) = Except.ok (Json.num g))
    (h4 : qv ≤ 4) :
    aggregate fcj qj pcj =
      Except.ok (f * (0.4 : ℚ) + qv * 25 * (0.3 : ℚ) + g * (0.3 : ℚ)) := by
  unfold aggregate
  rw [hq, hf, hg]
  simp [normalizeQuality, isNumberLike, pyMulFloat, h4]

theorem aggregate_eq_gt {fcj qj pcj : Json} {f qv g : ℚ}
    (hf : pyGet fcj "score" (Json.num 0) = Except.ok (Json.num f))
    (hq : pyGet qj "score" (Json.num 0) = Except.ok (Json.num qv))
    (hg : pyGet pcj "score" (Json.num 0) = Except.ok (Json.num g))
    (h4 : ¬ qv ≤ 4) :
    aggregate fcj qj pcj =
      Except.ok (f * (0.4 : ℚ) + qv * (0.3 : ℚ) + g * (0.3 : ℚ)) := by
  unfold aggregate
  rw [hq, hf, hg]
  simp [normalizeQuality, isNumberLike, pyMulFloat, h4]

theorem evaluate_ok {env : Env} {p t : String} (ins : List String) (raw : String)
    (hfs : env.fileExists p = true) (hex : env.extractResp = Except.ok t) :
    evaluate env p ins raw =
      (match aggregate (slotOf env.fcResp) (slotOf env.qResp) (pcSlot env raw) with
       | Except.error e => (Except.error e, [Call.extractC, Call.fcC, Call.qC] ++ pcCalls raw)
       | Except.ok overall =>
         (Except.ok (EvalOutcome.result
           ⟨t, slotOf env.fcResp, slotOf env.qResp, pcSlot env raw, round2 overall⟩),
          [Call.extractC, Call.fcC, Call.qC] ++ pcCalls raw)) := by
  unfold evaluate extract_invoice_text
  rw [hfs, hex]
  rfl

theorem evaluate_ok_fst {env : Env} {p t : String} (ins : List String) (raw : String)
    (hfs : env.fileExists p = true) (hex : env.extractResp = Except.ok t) :
    (evaluate env p ins raw).1 =
      (match aggregate (slotOf env.fcResp) (slotOf env.qResp) (pcSlot env raw) with
       | Except.error e => Except.error e
       | Except.ok overall =>
         Except.ok (EvalOutcome.result
           ⟨t, slotOf env.fcResp, slotOf env.qResp, pcSlot env raw, round2 overall⟩)) := by
  rw [evaluate_ok ins raw hfs hex]
  cases aggregate (slotOf env.fcResp) (slotOf env.qResp) (pcSlot env raw) <;> rfl

theorem evaluate_ok_snd {env : Env} {p t : String} (ins : List String) (raw : String)
    (hfs : env.fileExists p = true) (hex : env.extractResp = Except.ok t) :
    (evaluate env p ins raw).2 = [Call.extractC, Call.fcC, Call.qC] ++ pcCalls raw := by
  rw [evaluate_ok ins raw hfs hex]
  cases aggregate (slotOf env.fcResp) (slotOf env.qResp) (pcSlot env raw) <;> rfl

theorem run_eq_ok {env : Env} {p : String} {wf : WorkflowResult}
    (hfs : env.fileExists p = true) (hwf : env.workflowResp = Except.ok wf) :
    run env p =
      (match wf.error with
       | some e => if e = "" then runEval env p wf else Except.ok (RunOutcome.errorDict e)
       | none => runEval env p wf) := by
  unfold run
  rw [hfs, hwf]
  rfl

theorem scoreRead_of_numeric {j : Json} (h : scoreFieldNumeric j = true) :
    ∃ jv q, pyGet j "score" (Json.num 0) = Except.ok jv ∧ isNumberLike jv = some q := by
  cases j with
  | obj fs =>
    cases hl : lookupField fs "score" with
    | some v =>
      have hnum : (isNumberLike v).isSome = true := by
        simpa [scoreFieldNumeric, hl] using h
      obtain ⟨q, hq⟩ := Option.isSome_iff_exists.mp hnum
      exact ⟨v, q, by simp [pyGet, hl], hq⟩
    | none =>
      exact ⟨Json.num 0, 0, by simp [pyGet, hl], rfl⟩
  | null => simp [scoreFieldNumeric] at h
  | bool b => simp [scoreFieldNumeric] at h
  | num q => simp [scoreFieldNumeric] at h
  | str s => simp [scoreFieldNumeric] at h
  | arr es => simp [scoreFieldNumeric] at h

theorem isNumberLike_normalizeQuality {j : Json} {q : ℚ} (h : isNumberLike j = some q) :
    ∃ q2, isNumberLike (normalizeQuality j) = some q2 := by
  by_cases h4 : q ≤ 4
  · refine ⟨q * 25, ?_⟩
    unfold normalizeQuality
    rw [h]
    show isNumberLike (if q ≤ 4 then Json.num (q * 25) else j) = some (q * 25)
    rw [if_pos h4]
    rfl
  · refine ⟨q, ?_⟩
    unfold normalizeQuality
    rw [h]
    show isNumberLike (if q ≤ 4 then Json.num (q * 25) else j) = some q
    rw [if_neg h4]
    exact h

theorem aggregate_ok_of_numeric {a b c : Json}
    (ha : scoreFieldNumeric a = true) (hb : scoreFieldNumeric b = true)
    (hc : scoreFieldNumeric c = true) :
    ∃ v, aggregate a b c = Except.ok v := by
  obtain ⟨av, aq, hag, han⟩ := scoreRead_of_numeric ha
  obtain ⟨bv, bq, hbg, hbn⟩ := scoreRead_of_numeric hb
  obtain ⟨cv, cq, hcg, hcn⟩ := scoreRead_of_numeric hc
  obtain ⟨bq2, hbn2⟩ := isNumberLike_normalizeQuality hbn
  refine ⟨aq * (0.4 : ℚ) + bq2 * (0.3 : ℚ) + cq * (0.3 : ℚ), ?_⟩
  unfold aggregate
  rw [hbg, hag, hcg]
  simp [pyMulFloat, han, hbn2, hcn]

theorem scoreFieldNumeric_errStub (e : String) : scoreFieldNumeric (errStub e) = true := rfl

theorem scoreFieldNumeric_skipStub : scoreFieldNumeric skipStub = true := rfl

theorem slotOf_numeric {r : Except String Json} (h : respOk r) :
    scoreFieldNumeric (slotOf r) = true := by
  cases r with
  | ok d => exact h d rfl
  | error e => exact scoreFieldNumeric_errStub e

theorem pcSlot_numeric {env : Env} (raw : String) (h : respOk env.pcResp) :
    scoreFieldNumeric (pcSlot env raw) = true := by
  unfold pcSlot
  split_ifs
  · exact scoreFieldNumeric_skipStub
  · exact slotOf_numeric h

theorem extract_msg_ne (s t : String) :
    "Failed to extract invoice text: " ++ s ≠ "Image not found: " ++ t := by
  intro h
  have h2 : (("Failed to extract invoice text: " ++ s).data.take 3) =
      (("Image not found: " ++ t).data.take 3) := by rw [h]
  have h3 : (['F', 'a', 'i'] : List Char) = ['I', 'm', 'a'] := h2
  exact absurd h3 (by decide)

theorem evaluate_no_missing {env : Env} {p : String} (ins : List String) (raw : String)
    (hfs : env.fileExists p = true) :
    ∀ out, (evaluate env p ins raw).1 = Except.ok out →
      out ≠ EvalOutcome.errorDict ("Image not found: " ++ p) := by
  intro out hout heq
  subst heq
  cases hex : env.extractResp with
  | error e =>
    have hev : (evaluate env p ins raw).1 =
        Except.ok (EvalOutcome.errorDict ("Failed to extract invoice text: " ++ e)) := by
      unfold evaluate extract_invoice_text
      rw [hfs, hex]
      rfl
    rw [hev] at hout
    have h2 := Except.ok.inj hout
    have h3 := EvalOutcome.errorDict.inj h2
    exact extract_msg_ne e p h3
  | ok t =>
    rw [evaluate_ok_fst ins raw hfs hex] at hout
    cases hagg : aggregate (slotOf env.fcResp) (slotOf env.qResp) (pcSlot env raw) with
    | error e2 =>
      rw [hagg] at hout
      simp at hout
    | ok v =>
      rw [hagg] at hout
      simp at hout

theorem runEval_no_missing {env : Env} {p : String} (wf : WorkflowResult)
    (hfs : env.fileExists p = true) {pu : Option String} {ins : List String}
    {ev : EvalOutcome}
    (h : runEval env p wf = Except.ok (RunOutcome.combined pu ins ev)) :
    ev ≠ EvalOutcome.errorDict ("Image not found: " ++ p) := by
  intro heq
  subst heq
  unfold runEval at h
  cases hev : (evaluate env p wf.insights (wfRawText wf)).1 with
  | error e =>
    rw [hev] at h
    simp at h
  | ok ev2 =>
    rw [hev] at h
    simp only [Except.ok.injEq, RunOutcome.combined.injEq] at h
    obtain ⟨h1, h2, h3⟩ := h
    exact evaluate_no_missing wf.insights (wfRawText wf) hfs ev2 hev h3

/-- C1: for all well-formed judge verdicts reaching aggregation in
evaluate, with the factual-completeness and parsing-consistency score
fields numbers in 0..100 and the quality score field either 0 (for a
failure or skip stub) or a number on the 1..4 scale, the overall_score
field of the returned result is a number between 0 and 100. -/
theorem c1_overall_score_bounds (env : Env) (p t : String) (ins : List String) (raw : String)
    (hfs : env.fileExists p = true) (hex : env.extractResp = Except.ok t)
    (f qv g : ℚ)
    (hf : pyGet (slotOf env.fcResp) "score" (Json.num 0) = Except.ok (Json.num f))
    (hq : pyGet (slotOf env.qResp) "score" (Json.num 0) = Except.ok (Json.num qv))
    (hg : pyGet (pcSlot env raw) "score" (Json.num 0) = Except.ok (Json.num g))
    (hf0 : 0 ≤ f) (hf1 : f ≤ 100)
    (hqr : qv = 0 ∨ (1 ≤ qv ∧ qv ≤ 4))
    (hg0 : 0 ≤ g) (hg1 : g ≤ 100) :
    ∃ r : EvalResult, (evaluate env p ins raw).1 = Except.ok (EvalOutcome.result r) ∧
      0 ≤ r.overall_score ∧ r.overall_score ≤ 100 := by
  have hq4 : qv ≤ 4 := by
    rcases hqr with h | h
    · rw [h]; norm_num
    · exact h.2
  have hq0 : 0 ≤ qv := by
    rcases hqr with h | h
    · rw [h]
    · linarith [h.1]
  rw [evaluate_ok_fst ins raw hfs hex, aggregate_eq_le hf hq hg hq4]
  refine ⟨_, rfl, ?_, ?_⟩
  · exact round2_nonneg (by linarith)
  · exact round2_le_100 (by linarith)

/-- C2: whenever extraction succeeds and the scores read from the three
verdict slots (with the dict-get default 0 covering absent fields of
error and skip stubs) are numbers, evaluate returns a result whose
overall_score equals the spec formula: round to two decimals of
0.4 times fc plus 0.3 times the scale-normalized quality score plus
0.3 times pc. -/
theorem c2_overall_score_formula (env : Env) (p t : String) (ins : List String) (raw : String)
    (hfs : env.fileExists p = true) (hex : env.extractResp = Except.ok t)
    (f qv g : ℚ)
    (hf : pyGet (slotOf env.fcResp) "score" (Json.num 0) = Except.ok (Json.num f))
    (hq : pyGet (slotOf env.qResp) "score" (Json.num 0) = Except.ok (Json.num qv))
    (hg : pyGet (pcSlot env raw) "score" (Json.num 0) = Except.ok (Json.num g)) :
    ∃ r : EvalResult, (evaluate env p ins raw).1 = Except.ok (EvalOutcome.result r) ∧
      r.overall_score = specOverall f qv g := by
  by_cases h4 : qv ≤ 4
  · rw [evaluate_ok_fst ins raw hfs hex, aggregate_eq_le hf hq hg h4]
    refine ⟨_, rfl, ?_⟩
    show round2 (f * (0.4 : ℚ) + qv * 25 * (0.3 : ℚ) + g * (0.3 : ℚ)) = specOverall f qv g
    unfold specOverall specQualityNorm
    rw [if_pos h4]
    congr 1
    ring
  · rw [evaluate_ok_fst ins raw hfs hex, aggregate_eq_gt hf hq hg h4]
    refine ⟨_, rfl, ?_⟩
    show round2 (f * (0.4 : ℚ) + qv * (0.3 : ℚ) + g * (0.3 : ℚ)) = specOverall f qv g
    unfold specOverall specQualityNorm
    rw [if_neg h4]
    congr 1
    ring

/-- C3: the aggregation step multiplies a numeric quality score by 25
exactly when it does not exceed 4 and uses it as-is otherwise, and a
quality verdict whose score is exactly 4 contributes exactly 30 points
to the overall score. -/
theorem c3_quality_normalization (env : Env) (p t : String) (ins : List String) (raw : String)
    (hfs : env.fileExists p = true) (hex : env.extractResp = Except.ok t)
    (f g : ℚ)
    (hf : pyGet (slotOf env.fcResp) "score" (Json.num 0) = Except.ok (Json.num f))
    (hq : pyGet (slotOf env.qResp) "score" (Json.num 0) = Except.ok (Json.num 4))
    (hg : pyGet (pcSlot env raw) "score" (Json.num 0) = Except.ok (Json.num g)) :
    (∀ x : ℚ, x ≤ 4 → normalizeQuality (Json.num x) = Json.num (x * 25)) ∧
    (∀ x : ℚ, ¬ x ≤ 4 → normalizeQuality (Json.num x) = Json.num x) ∧
    (∃ r : EvalResult, (evaluate env p ins raw).1 = Except.ok (EvalOutcome.result r) ∧
      r.overall_score = round2 (f * (0.4 : ℚ) + 30 + g * (0.3 : ℚ))) := by
  refine ⟨?_, ?_, ?_⟩
  · intro x hx
    unfold normalizeQuality
    simp [isNumberLike, hx]
  · intro x hx
    unfold normalizeQuality
    simp [isNumberLike, hx]
  · rw [evaluate_ok_fst ins raw hfs hex, aggregate_eq_le hf hq hg (by norm_num)]
    refine ⟨_, rfl, ?_⟩
    show round2 (f * (0.4 : ℚ) + (4 : ℚ) * 25 * (0.3 : ℚ) + g * (0.3 : ℚ)) =
      round2 (f * (0.4 : ℚ) + 30 + g * (0.3 : ℚ))
    norm_num

/-- C4: for every image path the filesystem lacks, evaluate returns the
dict whose only key is error, with a message containing the path, and
makes no external call at all: neither the extraction collaborator nor
any judge appears in the trace. -/
theorem c4_missing_image_no_calls (env : Env) (p : String) (ins : List String) (raw : String)
    (h : env.fileExists p = false) :
    evaluate env p ins raw =
      (Except.ok (EvalOutcome.errorDict ("Image not found: " ++ p)), []) ∧
    (∃ a : String, "Image not found: " ++ p = a ++ p) := by
  constructor
  · unfold evaluate extract_invoice_text
    rw [h]
    simp
  · exact ⟨"Image not found: ", rfl⟩

/-- C5 counterexample: after successful extraction, a judge call that
returns a parsed dict whose score field is the string 3.5 makes the
weighted sum raise TypeError, so evaluate raises instead of returning a
fully-populated result; the claim quantifying over every parsed dict is
therefore false. -/
theorem c5_counterexample :
    (evaluate cenvTypeErr "invoice.png" ["one insight"] "ocr text").1 =
      Except.error PyErr.typeError ∧
    ∀ r : EvalResult,
      (evaluate cenvTypeErr "invoice.png" ["one insight"] "ocr text").1 ≠
        Except.ok (EvalOutcome.result r) := by
  refine ⟨rfl, ?_⟩
  intro r h
  rw [show (evaluate cenvTypeErr "invoice.png" ["one insight"] "ocr text").1 =
      Except.error PyErr.typeError from rfl] at h
  exact Except.noConfusion h

/-- C5 (amended): after successful extraction, for every combination of
per-judge outcomes in which each judge either raises or returns a
parsed dict whose score field, when present, is a number, every raised
judge exception becomes an error stub with score 0 occupying only that
judge's slot, the other judges still run, and evaluate returns a
fully-populated result with extracted_text, all three slots and a
numeric overall_score. -/
theorem c5_judge_failures_isolated (env : Env) (p t : String) (ins : List String) (raw : String)
    (hfs : env.fileExists p = true) (hex : env.extractResp = Except.ok t)
    (h1 : respOk env.fcResp) (h2 : respOk env.qResp) (h3 : respOk env.pcResp) :
    ∃ r : EvalResult, (evaluate env p ins raw).1 = Except.ok (EvalOutcome.result r) ∧
      r.extracted_text = t ∧
      r.factual_completeness = slotOf env.fcResp ∧
      r.quality = slotOf env.qResp ∧
      r.parsing_consistency = pcSlot env raw ∧
      (∀ e, env.fcResp = Except.error e → r.factual_completeness = errStub e) ∧
      (∀ e, env.qResp = Except.error e → r.quality = errStub e) ∧
      (∀ e, raw ≠ "" → env.pcResp = Except.error e → r.parsing_consistency = errStub e) ∧
      Call.fcC ∈ (evaluate env p ins raw).2 ∧
      Call.qC ∈ (evaluate env p ins raw).2 ∧
      (raw ≠ "" → Call.pcC ∈ (evaluate env p ins raw).2) := by
  obtain ⟨v, hv⟩ := aggregate_ok_of_numeric (slotOf_numeric h1) (slotOf_numeric h2)
    (pcSlot_numeric raw h3)
  rw [evaluate_ok_fst ins raw hfs hex, evaluate_ok_snd ins raw hfs hex, hv]
  refine ⟨_, rfl, rfl, rfl, rfl, rfl, ?_, ?_, ?_, ?_, ?_, ?_⟩
  · intro e he
    show slotOf env.fcResp = errStub e
    rw [he]
    rfl
  · intro e he
    show slotOf env.qResp = errStub e
    rw [he]
    rfl
  · intro e hraw he
    show pcSlot env raw = errStub e
    unfold pcSlot
    rw [if_neg hraw, he]
    rfl
  · simp
  · simp
  · intro hraw
    simp [pcCalls, hraw]

/-- C6 (code bug): the response parser is not total: on a response that
strips to a markdown fence with no newline, the index call that looks
for the end of the fence line raises ValueError instead of producing
the failure object. -/
theorem c6_parse_json_not_total :
    parse_json "\x60\x60\x60" = Except.error PyErr.valueError ∧
    ∀ j : Json, parse_json "\x60\x60\x60" ≠ Except.ok j := by
  refine ⟨rfl, ?_⟩
  intro j h
  rw [show parse_json "\x60\x60\x60" = Except.error PyErr.valueError from rfl] at h
  exact Except.noConfusion h

/-- C7: the three spec round-trip examples of the response parser: a
fenced JSON object is unwrapped, an object embedded in prose is
recovered from the brace-to-brace slice, and non-JSON text yields the
failure object carrying the original text under the raw key. -/
theorem c7_parser_round_trip :
    parse_json "\x60\x60\x60json\n\x7b\"score\": 42\x7d\n\x60\x60\x60" =
      Except.ok (Json.obj [("score", Json.num 42)]) ∧
    parse_json "Here is the result: \x7b\"score\": 10\x7d done." =
      Except.ok (Json.obj [("score", Json.num 10)]) ∧
    parse_json "not json at all" =
      Except.ok (Json.obj [("error", Json.str "Parse failed"),
        ("raw", Json.str "not json at all")]) :=
  ⟨rfl, rfl, rfl⟩

/-- C8: with an empty OCR raw text and successful extraction, the
parsing-consistency slot of any returned result is exactly the skip
stub with score 0 and a non-empty skip reason, and the judge C
collaborator is never invoked. -/
theorem c8_parsing_consistency_skip (env : Env) (p t : String) (ins : List String)
    (hfs : env.fileExists p = true) (hex : env.extractResp = Except.ok t) :
    Call.pcC ∉ (evaluate env p ins "").2 ∧
    (∀ r : EvalResult, (evaluate env p ins "").1 = Except.ok (EvalOutcome.result r) →
      r.parsing_consistency =
        Json.obj [("score", Json.num 0), ("skipped", Json.str "No parser raw text provided")]) ∧
    "No parser raw text provided" ≠ "" := by
  refine ⟨?_, ?_, by decide⟩
  · rw [evaluate_ok_snd ins "" hfs hex]
    decide
  · intro r hr
    rw [evaluate_ok_fst ins "" hfs hex] at hr
    cases hagg : aggregate (slotOf env.fcResp) (slotOf env.qResp) (pcSlot env "") with
    | error e =>
      rw [hagg] at hr
      simp at hr
    | ok v =>
      rw [hagg] at hr
      simp only [Except.ok.injEq, EvalOutcome.result.injEq] at hr
      rw [← hr]
      rfl

/-- C9 (code bug): on the input 42 the strict-decoding tier returns the
bare JSON number 42, which is neither a JSON object nor the failure
object, contradicting the object-or-ParseFailure contract and the
dict return annotation of the source. -/
theorem c9_parse_json_bare_number :
    parse_json "42" = Except.ok (Json.num 42) ∧
    (∀ fields : List (String × Json), Json.num 42 ≠ Json.obj fields) ∧
    Json.num 42 ≠ parseFailure "42" := by
  refine ⟨rfl, ?_, ?_⟩
  · intro fields h
    exact Json.noConfusion h
  · intro h
    exact Json.noConfusion h

/-- C10: when the image path does not exist, main.run raises
FileNotFoundError to its caller instead of returning an error dict, and
the missing-image error dict of evaluate can never appear as the
evaluation field of a combined dict returned by run. -/
theorem c10_run_not_found (env : Env) (p : String) :
    (env.fileExists p = false →
      run env p = Except.error (PyErr.fileNotFound ("Image not found: " ++ p))) ∧
    (∀ (pu : Option String) (ins : List String) (ev : EvalOutcome),
      run env p = Except.ok (RunOutcome.combined pu ins ev) →
      ev ≠ EvalOutcome.errorDict ("Image not found: " ++ p)) := by
  constructor
  · intro h
    unfold run
    rw [h]
    simp
  · intro pu ins ev hrun
    cases hfs : env.fileExists p with
    | false =>
      unfold run at hrun
      rw [hfs] at hrun
      simp at hrun
    | true =>
      cases hwf : env.workflowResp with
      | error e =>
        unfold run at hrun
        rw [hfs, hwf] at hrun
        simp at hrun
      | ok wf =>
        rw [run_eq_ok hfs hwf] at hrun
        cases herr : wf.error with
        | some e =>
          rw [herr] at hrun
          replace hrun : (if e = "" then runEval env p wf
              else Except.ok (RunOutcome.errorDict e)) =
              Except.ok (RunOutcome.combined pu ins ev) := hrun
          by_cases he : e = ""
          · rw [if_pos he] at hrun
            exact runEval_no_missing wf hfs hrun
          · rw [if_neg he] at hrun
            simp at hrun
        | none =>
          rw [herr] at hrun
          replace hrun : runEval env p wf =
              Except.ok (RunOutcome.combined pu ins ev) := hrun
          exact runEval_no_missing wf hfs hrun

/-- Witness for C1 at a concrete oracle with scores 80, 3 and 90. -/
theorem c1_overall_score_bounds_witness :
    ∃ r : EvalResult,
      (evaluate cenvGood "invoice.png" ["Acme Co billed 500"]
        "Vendor: Acme Co, Total: 500.00").1 = Except.ok (EvalOutcome.result r) ∧
      0 ≤ r.overall_score ∧ r.overall_score ≤ 100 :=
  c1_overall_score_bounds cenvGood "invoice.png" "Vendor: Acme Co, Total: 500"
    ["Acme Co billed 500"] "Vendor: Acme Co, Total: 500.00" rfl rfl 80 3 90 rfl rfl rfl
    (by norm_num) (by norm_num) (Or.inr (by norm_num)) (by norm_num) (by norm_num)

/-- Witness for C2 at a concrete oracle with scores 80, 3 and 90. -/
theorem c2_overall_score_formula_witness :
    ∃ r : EvalResult,
      (evaluate cenvGood "invoice.png" ["Acme Co billed 500"]
        "Vendor: Acme Co, Total: 500.00").1 = Except.ok (EvalOutcome.result r) ∧
      r.overall_score = specOverall 80 3 90 :=
  c2_overall_score_formula cenvGood "invoice.png" "Vendor: Acme Co, Total: 500"
    ["Acme Co billed 500"] "Vendor: Acme Co, Total: 500.00" rfl rfl 80 3 90 rfl rfl rfl

/-- Witness for C3 at a concrete oracle whose quality score is 4. -/
theorem c3_quality_normalization_witness :
    (∀ x : ℚ, x ≤ 4 → normalizeQuality (Json.num x) = Json.num (x * 25)) ∧
    (∀ x : ℚ, ¬ x ≤ 4 → normalizeQuality (Json.num x) = Json.num x) ∧
    (∃ r : EvalResult,
      (evaluate cenvQuality4 "invoice.png" ["Acme Co billed 500"] "ocr text").1 =
        Except.ok (EvalOutcome.result r) ∧
      r.overall_score = round2 ((80 : ℚ) * (0.4 : ℚ) + 30 + (90 : ℚ) * (0.3 : ℚ))) :=
  c3_quality_normalization cenvQuality4 "invoice.png" "Vendor: Acme Co, Total: 500"
    ["Acme Co billed 500"] "ocr text" rfl rfl 80 90 rfl rfl rfl

/-- Witness for C4 at a concrete oracle whose filesystem is empty. -/
theorem c4_missing_image_no_calls_witness :
    evaluate cenvMissing "invoice.png" ["one insight"] "" =
      (Except.ok (EvalOutcome.errorDict ("Image not found: " ++ "invoice.png")), []) ∧
    (∃ a : String, "Image not found: " ++ "invoice.png" = a ++ "invoice.png") :=
  c4_missing_image_no_calls cenvMissing "invoice.png" ["one insight"] "" rfl

/-- Witness for the amended C5 at a concrete oracle whose
factual-completeness judge raises. -/
theorem c5_judge_failures_isolated_witness :
    ∃ r : EvalResult,
      (evaluate cenvOneFail "invoice.png" ["one insight"] "ocr text").1 =
        Except.ok (EvalOutcome.result r) ∧
      r.extracted_text = "Vendor: Acme Co, Total: 500" ∧
      r.factual_completeness = slotOf cenvOneFail.fcResp ∧
      r.quality = slotOf cenvOneFail.qResp ∧
      r.parsing_consistency = pcSlot cenvOneFail "ocr text" ∧
      (∀ e, cenvOneFail.fcResp = Except.error e → r.factual_completeness = errStub e) ∧
      (∀ e, cenvOneFail.qResp = Except.error e → r.quality = errStub e) ∧
      (∀ e, "ocr text" ≠ "" → cenvOneFail.pcResp = Except.error e →
        r.parsing_consistency = errStub e) ∧
      Call.fcC ∈ (evaluate cenvOneFail "invoice.png" ["one insight"] "ocr text").2 ∧
      Call.qC ∈ (evaluate cenvOneFail "invoice.png" ["one insight"] "ocr text").2 ∧
      ("ocr text" ≠ "" →
        Call.pcC ∈ (evaluate cenvOneFail "invoice.png" ["one insight"] "ocr text").2) :=
  c5_judge_failures_isolated cenvOneFail "invoice.png" "Vendor: Acme Co, Total: 500"
    ["one insight"] "ocr text" rfl rfl
    (fun _ h => Except.noConfusion h)
    (fun _ h => by injection h with h2; subst h2; rfl)
    (fun _ h => by injection h with h2; subst h2; rfl)

/-- Witness for C8 at a concrete oracle, with the empty OCR text. -/
theorem c8_parsing_consistency_skip_witness :
    Call.pcC ∉ (evaluate cenvGood "invoice.png" ["one insight"] "").2 ∧
    (∀ r : EvalResult,
      (evaluate cenvGood "invoice.png" ["one insight"] "").1 =
        Except.ok (EvalOutcome.result r) →
      r.parsing_consistency =
        Json.obj [("score", Json.num 0), ("skipped", Json.str "No parser raw text provided")]) ∧
    "No parser raw text provided" ≠ "" :=
  c8_parsing_consistency_skip cenvGood "invoice.png" "Vendor: Acme Co, Total: 500"
    ["one insight"] rfl rfl

/-- Witness for C10 at a concrete oracle whose filesystem is empty. -/
theorem c10_run_not_found_witness :
    run cenvMissing "invoice.png" =
      Except.error (PyErr.fileNotFound ("Image not found: " ++ "invoice.png")) :=
  (c10_run_not_found cenvMissing "invoice.png").1 rfl

end InvoiceAgent
